import Mathlib

/-!
Verification of the per-frame update loop of the vertical-scrolling shooter
in `src/main.rs` (the richest variant of the repository).

The Rust code is shallowly embedded as follows.

* `f32` scalars (positions, sizes, speeds, timer values) are modelled by `ℚ`
  with exact arithmetic.
* Transcendental `f32` operations (`sin`, `cos`, `atan2`, `to_radians`) and
  the constant `std::f32::consts::PI` are abstracted into a record
  `FloatOps` of unconstrained rational functions/constants that is passed to
  every definition that needs them; the structure of the computations around
  them is kept exactly.
* The comparison `distance < r` of the source (where `distance` is a square
  root) is encoded square-root-free: for `d2 = distance²` and a radius sum
  `s`, `√d2 < s ↔ 0 < s ∧ d2 < s²`, which is exact over the reals.  The same
  holds for the strict comparisons of distances in the closest-enemy search,
  so squared distances are compared there.
* `Duration` values are rationals measured in milliseconds;
  `Duration::saturating_sub` becomes `satSub a b = max (a - b) 0` and
  `is_zero` becomes `= 0`.
* Randomness (`rand::thread_rng`) is abstracted: every random draw is taken
  from an explicit input (`FrameInput` fields hold the drawn spawn
  coordinates, the coin flip, and per-burst particle generators).
* `i32` counters (`score`, `missile_ammo`) are modelled by `ℤ`.
* Rendering, audio playback (`SoundEffects`) and image loading are pure
  effects with no influence on the game data and are omitted; the
  center-anchored placement used by `GameObject::draw` (offset `(0.5,0.5)`)
  is reflected by `spriteLeftEdge` below.
-/

/-- `BASE_WINDOW_WIDTH` from the source. -/
def BASE_WINDOW_WIDTH : ℚ := 1024

/-- `BASE_WINDOW_HEIGHT` from the source. -/
def BASE_WINDOW_HEIGHT : ℚ := 768

/-- `PLAYER_SPEED_RATIO` from the source (renamed; speed per window width). -/
def PLAYER_SPEED_RATE : ℚ := 5 / 1024

/-- `BULLET_SPEED_RATIO` from the source (renamed; speed per window height). -/
def BULLET_SPEED_RATE : ℚ := 8 / 768

/-- `ENEMY_SPEED_RATIO` from the source (renamed; speed per window height). -/
def ENEMY_SPEED_RATE : ℚ := 2 / 768

/-- `PARTICLE_LIFETIME` from the source, in seconds. -/
def PARTICLE_LIFETIME : ℚ := 1 / 2

/-- `EXPLOSION_PARTICLES` from the source. -/
def EXPLOSION_PARTICLES : Nat := 10

/-- `MAX_PARTICLES` from the source. -/
def MAX_PARTICLES : Nat := 1000

/-- `f32::min` on exact rationals (kernel-computable definition). -/
def qmin (a b : ℚ) : ℚ := if a ≤ b then a else b

/-- `f32::max` on exact rationals (kernel-computable definition). -/
def qmax (a b : ℚ) : ℚ := if b ≤ a then a else b

/-- Abstract interface for the `f32` transcendental functions and π used by
the source; the embedding is parametric in it. -/
structure FloatOps where
  sin : ℚ → ℚ
  cos : ℚ → ℚ
  atan2 : ℚ → ℚ → ℚ
  toRadians : ℚ → ℚ
  pi : ℚ

/-- 2-D vector (`glam::Vec2`). -/
structure Vec2 where
  x : ℚ
  y : ℚ
deriving DecidableEq

instance : Add Vec2 := ⟨fun a b => ⟨a.x + b.x, a.y + b.y⟩⟩

instance : Sub Vec2 := ⟨fun a b => ⟨a.x - b.x, a.y - b.y⟩⟩

/-- Scalar multiple of a vector. -/
def Vec2.scale (k : ℚ) (v : Vec2) : Vec2 := ⟨k * v.x, k * v.y⟩

/-- Squared euclidean distance between two points (the source compares
`Vec2::distance` values; comparisons are carried out on squares, which is
equivalent, see the module comment). -/
def dist2 (a b : Vec2) : ℚ := (a.x - b.x) ^ 2 + (a.y - b.y) ^ 2

/-- `WindowSize` from the source: physical size plus the scale factors
relative to the 1024×768 logical playfield. -/
structure WindowSize where
  width : ℚ
  height : ℚ
  scale_x : ℚ
  scale_y : ℚ
deriving DecidableEq

/-- `WindowSize::new`. -/
def WindowSize.new (w h : ℚ) : WindowSize :=
  ⟨w, h, w / BASE_WINDOW_WIDTH, h / BASE_WINDOW_HEIGHT⟩

/-- `WindowSize::scale_vec2`. -/
def WindowSize.scale_vec2 (ws : WindowSize) (v : Vec2) : Vec2 :=
  ⟨v.x * ws.scale_x, v.y * ws.scale_y⟩

/-- `ggez::graphics::Color`. -/
structure Color where
  r : ℚ
  g : ℚ
  b : ℚ
  a : ℚ
deriving DecidableEq

/-- `GameObjectType` from the source. -/
inductive GameObjectType where
  | Player
  | Bullet
  | Enemy
  | GuidedMissile
  | MissileAmmo
  | SpreadShot
  | SpreadAmmo
deriving DecidableEq

/-- `GameObject` from the source (the `image` field, a render-only handle,
is omitted). -/
structure GameObject where
  pos : Vec2
  base_size : Vec2
  speed : Vec2
  rotation : ℚ
  object_type : GameObjectType
  target : Option Nat
deriving DecidableEq

/-- `GameObject::new`: initial rotation is π for enemies and 0 otherwise;
speed is zero and no target is set. -/
def GameObject.new (F : FloatOps) (x y w h : ℚ) (t : GameObjectType) : GameObject :=
  { pos := ⟨x, y⟩
    base_size := ⟨w, h⟩
    speed := ⟨0, 0⟩
    rotation := match t with
      | GameObjectType.Enemy => F.pi
      | _ => 0
    object_type := t
    target := none }

/-- The pair of collision radii chosen by the `match` at the start of
`GameObject::intersects`, as a function of the two object kinds and the two
`base_size` values (`sa` belongs to `self`, `sb` to `other`).  Note that in
the player/pickup, player/enemy and fallback arms the source computes the
single radius from `self`'s size only and uses it for both objects. -/
def radiusPair (ta tb : GameObjectType) (sa sb : Vec2) : ℚ × ℚ :=
  match ta, tb with
  | GameObjectType.Bullet, GameObjectType.Enemy
  | GameObjectType.SpreadShot, GameObjectType.Enemy =>
      (sa.x * (8 / 10), sb.x * (45 / 100))
  | GameObjectType.Enemy, GameObjectType.Bullet
  | GameObjectType.Enemy, GameObjectType.SpreadShot =>
      (sa.x * (45 / 100), sb.x * (8 / 10))
  | GameObjectType.Player, GameObjectType.MissileAmmo
  | GameObjectType.Player, GameObjectType.SpreadAmmo
  | GameObjectType.MissileAmmo, GameObjectType.Player
  | GameObjectType.SpreadAmmo, GameObjectType.Player =>
      (qmin sa.x sa.y * (6 / 10), qmin sa.x sa.y * (6 / 10))
  | GameObjectType.Player, GameObjectType.Enemy
  | GameObjectType.Enemy, GameObjectType.Player =>
      (qmin sa.x sa.y * (4 / 10), qmin sa.x sa.y * (4 / 10))
  | _, _ =>
      (qmin sa.x sa.y * (4 / 10), qmin sa.x sa.y * (4 / 10))

/-- The sum of the two radii of `GameObject::intersects` after applying the
display scale factor `min scale_x scale_y` to each. -/
def scaledRadiusSum (self other : GameObject) (ws : WindowSize) : ℚ :=
  (radiusPair self.object_type other.object_type self.base_size other.base_size).1
      * qmin ws.scale_x ws.scale_y
    + (radiusPair self.object_type other.object_type self.base_size other.base_size).2
      * qmin ws.scale_x ws.scale_y

/-- `GameObject::intersects`: the two centers are scaled to physical
coordinates, each radius is scaled by `min scale_x scale_y`, and the test is
`distance < r_self + r_other`, encoded square-root-free (see module
comment). -/
def GameObject.intersects (self other : GameObject) (ws : WindowSize) : Bool :=
  decide (0 < scaledRadiusSum self other ws ∧
    dist2 (ws.scale_vec2 self.pos) (ws.scale_vec2 other.pos)
      < scaledRadiusSum self other ws ^ 2)

/-- `GameObject::update_guided_missile`: `MISSILE_SPEED = 4`,
`TURN_RATE = 0.1`.  The stored target index is dereferenced only under the
bounds check `target_idx < enemies.len()`; the `distance > 0` test of the
source is encoded as `0 < dist2` (equivalent, since `distance = √dist2`). -/
def GameObject.update_guided_missile (m : GameObject) (F : FloatOps)
    (enemies : List GameObject) (ws : WindowSize) : GameObject :=
  match m.target with
  | none => m
  | some target_idx =>
    if h : target_idx < enemies.length then
      let target := enemies.get ⟨target_idx, h⟩
      let direction := target.pos - m.pos
      if 0 < dist2 target.pos m.pos then
        let target_angle := F.atan2 direction.y direction.x
        let d0 := target_angle - m.rotation
        let angle_diff :=
          if F.pi < d0 then d0 - 2 * F.pi
          else if d0 < -F.pi then d0 + 2 * F.pi
          else d0
        let rot := m.rotation + angle_diff * (1 / 10)
        { m with
            rotation := rot
            speed := ⟨F.cos rot * 4 * ws.scale_x, F.sin rot * 4 * ws.scale_y⟩ }
      else m
    else m

/-- Logical x-coordinate of the left edge of an object's sprite:
`GameObject::draw` draws at `dest = pos` with `offset (0.5, 0.5)`, so the
sprite is centered on `pos` and spans `pos ± base_size / 2`. -/
def spriteLeftEdge (g : GameObject) : ℚ := g.pos.x - g.base_size.x / 2

/-- `Particle` from the source. -/
structure Particle where
  pos : Vec2
  vel : Vec2
  color : Color
  lifetime : ℚ
  size : ℚ
deriving DecidableEq

/-- `Particle::update` (with `dt` in seconds): integrate the scaled
velocity, decrement the lifetime, fade alpha by `min (lt/LIFETIME) 1` and
shrink the size by `max (lt/LIFETIME) 0.1`. -/
def Particle.update (p : Particle) (dt : ℚ) (ws : WindowSize) : Particle :=
  { p with
      pos := p.pos + Vec2.scale dt (ws.scale_vec2 p.vel)
      lifetime := p.lifetime - dt
      color := { p.color with a := qmin ((p.lifetime - dt) / PARTICLE_LIFETIME) 1 }
      size := p.size * qmax ((p.lifetime - dt) / PARTICLE_LIFETIME) (1 / 10) }

/-- `ParticleSystem` from the source. -/
structure ParticleSystem where
  particles : List Particle
deriving DecidableEq

/-- `ParticleSystem::update`: `retain_mut` updates every particle in place
and keeps exactly those with positive remaining lifetime. -/
def ParticleSystem.update (ps : ParticleSystem) (dt : ℚ) (ws : WindowSize) : ParticleSystem :=
  ⟨(ps.particles.map (fun p => p.update dt ws)).filter (fun p => decide (0 < p.lifetime))⟩

/-- `ParticleSystem::add_explosion`: computes `available_slots` with a
saturating subtraction from `MAX_PARTICLES`, spawns
`min EXPLOSION_PARTICLES available_slots` particles and appends them; the
random angle/speed/size draws of particle `k` are abstracted into `gen k`,
which yields the resulting velocity vector and size. -/
def ParticleSystem.add_explosion (ps : ParticleSystem) (pos : Vec2) (color : Color)
    (gen : Nat → Vec2 × ℚ) : ParticleSystem :=
  let available_slots := MAX_PARTICLES - ps.particles.length
  let particles_to_add := min EXPLOSION_PARTICLES available_slots
  ⟨ps.particles ++ (List.range particles_to_add).map (fun k =>
    { pos := pos, vel := (gen k).1, color := color,
      lifetime := PARTICLE_LIFETIME, size := (gen k).2 })⟩

/-- One operation on the particle pool: a burst request
(`add_explosion`) or an update tick. -/
inductive PoolOp where
  | burst : Vec2 → Color → (Nat → Vec2 × ℚ) → PoolOp
  | tick : ℚ → WindowSize → PoolOp

/-- Apply a pool operation. -/
def PoolOp.run (ps : ParticleSystem) : PoolOp → ParticleSystem
  | PoolOp.burst pos c gen => ps.add_explosion pos c gen
  | PoolOp.tick dt ws => ps.update dt ws

/-- `MainState` from the source (`sounds`, a render/audio handle, is
omitted; all game data fields are kept). -/
structure MainState where
  window_size : WindowSize
  player : GameObject
  bullets : List GameObject
  enemies : List GameObject
  score : ℤ
  spawn_timer : ℚ
  game_over : Bool
  paused : Bool
  shoot_cooldown : ℚ
  star_field : List (Vec2 × ℚ)
  particles : ParticleSystem
  missile_cooldown : ℚ
  missile_ammo : ℤ
  ammo_spawn_timer : ℚ
  ammo_items : List GameObject
  p_key_pressed : Bool
  has_spread_shot : Bool
deriving DecidableEq

/-- The per-frame external inputs of `MainState::update`: the polled window
size and keyboard state, the frame's elapsed time (milliseconds), and all
random draws made during the frame (spawn coordinates, the pickup-kind coin
flip, and the particle generators of each burst, indexed by the burst's
position within its phase). -/
structure FrameInput where
  winW : ℚ
  winH : ℚ
  keyP : Bool
  keySpace : Bool
  keyX : Bool
  keyLeft : Bool
  keyRight : Bool
  keyUpArrow : Bool
  keyDownArrow : Bool
  keyA : Bool
  keyD : Bool
  keyW : Bool
  keyS : Bool
  dt : ℚ
  enemyX : ℚ
  ammoX : ℚ
  ammoCoin : Bool
  shootGen : Nat → Vec2 × ℚ
  explGen : Nat → Nat → Vec2 × ℚ
  pickupGen1 : Nat → Nat → Vec2 × ℚ
  pickupGen2 : Nat → Nat → Vec2 × ℚ

/-- `MainState::new` (star positions, normally random, are a parameter). -/
def MainState.new (F : FloatOps) (stars : List (Vec2 × ℚ)) : MainState :=
  { window_size := WindowSize.new BASE_WINDOW_WIDTH BASE_WINDOW_HEIGHT
    player := GameObject.new F (BASE_WINDOW_WIDTH / 2) (BASE_WINDOW_HEIGHT - 30) 50 60
      GameObjectType.Player
    bullets := []
    enemies := []
    score := 0
    spawn_timer := 0
    game_over := false
    paused := false
    shoot_cooldown := 0
    star_field := stars
    particles := ⟨[]⟩
    missile_cooldown := 0
    missile_ammo := 5
    ammo_spawn_timer := 0
    ammo_items := []
    p_key_pressed := false
    has_spread_shot := false }

/-- `MainState::reset`: reinitializes the session state; note that
`window_size`, `star_field` and `particles` are kept, exactly as in the
source. -/
def MainState.reset (F : FloatOps) (s : MainState) : MainState :=
  { s with
      player := GameObject.new F (BASE_WINDOW_WIDTH / 2) (BASE_WINDOW_HEIGHT - 30) 50 60
        GameObjectType.Player
      bullets := []
      enemies := []
      ammo_items := []
      score := 0
      game_over := false
      paused := false
      spawn_timer := 0
      shoot_cooldown := 0
      missile_cooldown := 0
      missile_ammo := 5
      ammo_spawn_timer := 0
      p_key_pressed := false
      has_spread_shot := false }

/-- `Duration::saturating_sub` on millisecond rationals. -/
def satSub (a b : ℚ) : ℚ := qmax (a - b) 0

/-- `f32::clamp`. -/
def qclamp (v lo hi : ℚ) : ℚ := qmax lo (qmin v hi)

/-- The closest-enemy search of `MainState::launch_missile`: iterate over
the enumerated enemies keeping the index of the smallest distance seen so
far.  The accumulator's `none` stands for the initial `f32::MAX` (which
every actual distance beats), and squared distances are compared (`d < d'`
iff `√d < √d'`). -/
def closestEnemyAux (p : Vec2) : List GameObject → Nat → Nat × Option ℚ → Nat × Option ℚ
  | [], _, acc => acc
  | e :: es, idx, acc =>
    closestEnemyAux p es (idx + 1)
      (match acc.2 with
       | none => (idx, some (dist2 e.pos p))
       | some m => if dist2 e.pos p < m then (idx, some (dist2 e.pos p)) else acc)

/-- `MainState::launch_missile`: a no-op when there is no enemy or no ammo;
otherwise pushes one guided missile targeting the closest enemy and
decrements the ammo counter. -/
def MainState.launch_missile (F : FloatOps) (s : MainState) : MainState :=
  if s.enemies.isEmpty ∨ s.missile_ammo ≤ 0 then s
  else
    let closest := (closestEnemyAux s.player.pos s.enemies 0 (0, none)).1
    let missile :=
      { GameObject.new F s.player.pos.x (s.player.pos.y - s.player.base_size.y / 2) 8 24
          GameObjectType.GuidedMissile with target := some closest }
    { s with bullets := s.bullets ++ [missile], missile_ammo := s.missile_ammo - 1 }

/-- `MainState::shoot`: queue a muzzle particle burst (orange when spread
shot is active, yellow otherwise) at the point above the player's center,
then push five spread bullets (angles −30°,−15°,0°,15°,30°, each with
rotation `to_radians angle` and velocity
`(sin rad, -cos rad) * BULLET_SPEED_RATIO * height`) or one standard
bullet. -/
def MainState.shoot (F : FloatOps) (i : FrameInput) (s : MainState) : MainState :=
  let bullet_pos : Vec2 := ⟨s.player.pos.x, s.player.pos.y - s.player.base_size.y / 2⟩
  let parts := s.particles.add_explosion bullet_pos
    (if s.has_spread_shot then ⟨1, 1/2, 0, 1/2⟩ else ⟨1, 1, 0, 1/2⟩) i.shootGen
  let newBullets : List GameObject :=
    if s.has_spread_shot then
      ([-30, -15, 0, 15, 30] : List ℚ).map (fun angle =>
        let rad := F.toRadians angle
        { GameObject.new F bullet_pos.x bullet_pos.y 5 20 GameObjectType.SpreadShot with
            speed := Vec2.scale (BULLET_SPEED_RATE * s.window_size.height)
              ⟨F.sin rad, -(F.cos rad)⟩
            rotation := rad })
    else
      [GameObject.new F (bullet_pos.x - 5/2) bullet_pos.y 5 20 GameObjectType.Bullet]
  { s with particles := parts, bullets := s.bullets ++ newBullets }

/-- The pause-key handling at the top of `MainState::update`: edge-triggered
toggle tracked by `p_key_pressed`; note it runs before the game-over
check. -/
def pauseKeyStep (i : FrameInput) (s : MainState) : MainState :=
  if i.keyP then
    (if ¬ s.p_key_pressed then { s with paused := !s.paused, p_key_pressed := true } else s)
  else { s with p_key_pressed := false }

/-- Player movement from held direction keys, then clamping of the position
to `[0, W - w] × [0, H - h]` (`MainState::update`, movement block). -/
def movePlayer (i : FrameInput) (s : MainState) : MainState :=
  let player_speed := PLAYER_SPEED_RATE * s.window_size.width
  let dx0 : ℚ := 0
  let dx1 := if i.keyLeft || i.keyA then dx0 - player_speed else dx0
  let dx := if i.keyRight || i.keyD then dx1 + player_speed else dx1
  let dy0 : ℚ := 0
  let dy1 := if i.keyUpArrow || i.keyW then dy0 - player_speed else dy0
  let dy := if i.keyDownArrow || i.keyS then dy1 + player_speed else dy1
  { s with player := { s.player with pos :=
      ⟨qclamp (s.player.pos.x + dx) 0 (BASE_WINDOW_WIDTH - s.player.base_size.x),
       qclamp (s.player.pos.y + dy) 0 (BASE_WINDOW_HEIGHT - s.player.base_size.y)⟩ } }

/-- Primary-fire handling: decrement the shoot cooldown (saturating); if
the fire key is held and the cooldown is zero, shoot and reset the cooldown
to 250 ms. -/
def fireStep (F : FloatOps) (i : FrameInput) (s : MainState) : MainState :=
  let cd := satSub s.shoot_cooldown i.dt
  if i.keySpace ∧ cd = 0 then { s.shoot F i with shoot_cooldown := 250 }
  else { s with shoot_cooldown := cd }

/-- Homing-missile handling: decrement the missile cooldown (saturating); if
the launch key is held and the cooldown is zero, launch and reset the
cooldown to 1000 ms (the cooldown is reset even when the launch itself is a
no-op). -/
def missileStep (F : FloatOps) (i : FrameInput) (s : MainState) : MainState :=
  let cd := satSub s.missile_cooldown i.dt
  if i.keyX ∧ cd = 0 then { s.launch_missile F with missile_cooldown := 1000 }
  else { s with missile_cooldown := cd }

/-- Per-kind bullet movement: standard bullets move straight up by the
bullet speed, spread bullets move by their pre-computed velocity, guided
missiles run `update_guided_missile` and then move by their velocity. -/
def moveBullets (F : FloatOps) (s : MainState) : MainState :=
  let bullet_speed := BULLET_SPEED_RATE * s.window_size.height
  { s with bullets := s.bullets.map (fun b =>
      match b.object_type with
      | GameObjectType.Bullet => { b with pos := ⟨b.pos.x, b.pos.y - bullet_speed⟩ }
      | GameObjectType.SpreadShot => { b with pos := b.pos + b.speed }
      | GameObjectType.GuidedMissile =>
          let b' := b.update_guided_missile F s.enemies s.window_size
          { b' with pos := b'.pos + b'.speed }
      | _ => b) }

/-- Pickup spawning: every 15 simulated seconds spawn one pickup whose kind
is an unweighted coin flip (missile ammo 20×20 or spread ammo 25×25) at a
drawn x coordinate above the top edge. -/
def ammoSpawnStep (F : FloatOps) (i : FrameInput) (s : MainState) : MainState :=
  let timer := s.ammo_spawn_timer + i.dt
  if 15000 ≤ timer then
    let ammo :=
      if i.ammoCoin then GameObject.new F i.ammoX (-30) 20 20 GameObjectType.MissileAmmo
      else GameObject.new F i.ammoX (-30) 25 25 GameObjectType.SpreadAmmo
    { s with ammo_items := s.ammo_items ++ [ammo], ammo_spawn_timer := 0 }
  else { s with ammo_spawn_timer := timer }

/-- `self.bullets.retain(|bullet| bullet.pos.y > -bullet.base_size.y)`. -/
def retainBullets (s : MainState) : MainState :=
  { s with bullets := s.bullets.filter (fun b => decide (-b.base_size.y < b.pos.y)) }

/-- Enemy spawning: every simulated second push one 40×40 enemy at a drawn
x coordinate above the top edge. -/
def enemySpawnStep (F : FloatOps) (i : FrameInput) (s : MainState) : MainState :=
  let timer := s.spawn_timer + i.dt
  if 1000 ≤ timer then
    { s with enemies := s.enemies ++ [GameObject.new F i.enemyX (-50) 40 40 GameObjectType.Enemy]
             spawn_timer := 0 }
  else { s with spawn_timer := timer }

/-- Enemy movement and player collision: each enemy moves down by the enemy
speed and then `enemy.intersects(player)` latches the game-over flag. -/
def enemyMoveStep (s : MainState) : MainState :=
  let enemy_speed := ENEMY_SPEED_RATE * s.window_size.height
  let moved := s.enemies.map (fun e => { e with pos := ⟨e.pos.x, e.pos.y + enemy_speed⟩ })
  { s with enemies := moved
           game_over := s.game_over || moved.any (fun e => e.intersects s.player s.window_size) }

/-- `self.enemies.retain(|enemy| enemy.pos.y < BASE_WINDOW_HEIGHT)`. -/
def retainEnemies (s : MainState) : MainState :=
  { s with enemies := s.enemies.filter (fun e => decide (e.pos.y < BASE_WINDOW_HEIGHT)) }

/-- Star-field scrolling (visual only, kept for fidelity). -/
def starStep (s : MainState) : MainState :=
  { s with star_field := s.star_field.map (fun st =>
      let y := st.1.y + (1/2) * s.window_size.scale_y
      if BASE_WINDOW_HEIGHT < y then (⟨st.1.x, 0⟩, st.2) else (⟨st.1.x, y⟩, st.2)) }

/-- Per-hit score from the bullet kind: 20 for a guided missile, 10
otherwise. -/
def bulletScore : GameObjectType → ℤ
  | GameObjectType.GuidedMissile => 20
  | _ => 10

/-- Accumulator of the bullet×enemy collision scan: the two destroyed-index
sets (as lists, insertion order), the score, and the queued explosion
positions. -/
structure ScanAcc where
  destB : List Nat
  destE : List Nat
  score : ℤ
  expl : List Vec2

/-- Inner loop of the collision scan: for a fixed enumerated bullet, visit
every enumerated enemy; a pair is recorded only when neither index is
already marked destroyed and the circles overlap. -/
def scanInner (ws : WindowSize) (bp : Nat × GameObject) :
    List (Nat × GameObject) → ScanAcc → ScanAcc
  | [], acc => acc
  | ep :: rest, acc =>
    scanInner ws bp rest
      (if bp.1 ∉ acc.destB ∧ ep.1 ∉ acc.destE ∧ bp.2.intersects ep.2 ws = true then
        ⟨acc.destB ++ [bp.1], acc.destE ++ [ep.1],
         acc.score + bulletScore bp.2.object_type,
         acc.expl ++ [ep.2.pos + Vec2.scale (1/2) ep.2.base_size]⟩
      else acc)

/-- Outer loop of the collision scan over the enumerated bullets. -/
def scanOuter (ws : WindowSize) :
    List (Nat × GameObject) → List (Nat × GameObject) → ScanAcc → ScanAcc
  | [], _, acc => acc
  | bp :: rest, eps, acc => scanOuter ws rest eps (scanInner ws bp eps acc)

/-- The complete bullet×enemy collision scan of `MainState::update`. -/
def collisionScan (bullets enemies : List GameObject) (ws : WindowSize) (score0 : ℤ) : ScanAcc :=
  scanOuter ws bullets.enum enemies.enum ⟨[], [], score0, []⟩

/-- Descending insertion used to model
`sort_unstable_by(|a, b| b.cmp(a))`. -/
def insertDesc (x : Nat) : List Nat → List Nat
  | [] => [x]
  | y :: ys => if y ≤ x then x :: y :: ys else y :: insertDesc x ys

/-- Sort a list of indices in descending order. -/
def sortDesc (l : List Nat) : List Nat := l.foldr insertDesc []

/-- Remove the given indices from a list, highest index first, skipping any
index that is out of range (`if idx < len { remove(idx) }`). -/
def removeIdxsDesc (l : List GameObject) (idxs : List Nat) : List GameObject :=
  (sortDesc idxs).foldl (fun acc idx => if idx < acc.length then acc.eraseIdx idx else acc) l

/-- Collision resolution: run the scan, remove the destroyed bullets and
enemies in descending index order, take the accumulated score, and queue an
orange explosion burst at each recorded position. -/
def collisionStep (i : FrameInput) (s : MainState) : MainState :=
  let r := collisionScan s.bullets s.enemies s.window_size s.score
  { s with bullets := removeIdxsDesc s.bullets r.destB
           enemies := removeIdxsDesc s.enemies r.destE
           score := r.score
           particles := r.expl.enum.foldl (fun acc pe =>
             acc.add_explosion pe.2 ⟨1, 1/2, 0, 1⟩ (i.explGen pe.1)) s.particles }

/-- `self.particles.update(dt.as_secs_f32(), ...)`: the millisecond delta is
converted to seconds. -/
def particleTick (i : FrameInput) (s : MainState) : MainState :=
  { s with particles := s.particles.update (i.dt / 1000) s.window_size }

/-- Pickup movement and off-screen removal. -/
def moveAmmoStep (s : MainState) : MainState :=
  let ammo_speed := ENEMY_SPEED_RATE * s.window_size.height
  let moved := s.ammo_items.map (fun a => { a with pos := ⟨a.pos.x, a.pos.y + ammo_speed⟩ })
  { s with ammo_items := moved.filter (fun a => decide (a.pos.y < BASE_WINDOW_HEIGHT)) }

/-- First pickup-collection loop of `MainState::update` (lines 832–851):
every pickup overlapping the player — regardless of its kind — adds 3 to
the missile-ammo counter and queues a cyan burst; the collected pickups are
then removed in reverse index order. -/
def pickupLoop1 (i : FrameInput) (s : MainState) : MainState :=
  let r := s.ammo_items.enum.foldl
    (fun (acc : List Nat × ℤ × ParticleSystem) ap =>
      if ap.2.intersects s.player s.window_size = true then
        (acc.1 ++ [ap.1], acc.2.1 + 3,
         acc.2.2.add_explosion ap.2.pos ⟨0, 1, 1, 1⟩ (i.pickupGen1 acc.1.length))
      else acc)
    ([], s.missile_ammo, s.particles)
  { s with missile_ammo := r.2.1
           particles := r.2.2
           ammo_items := r.1.reverse.foldl (fun l idx => l.eraseIdx idx) s.ammo_items }

/-- Second pickup-collection loop of `MainState::update` (lines 853–878):
matches on the pickup kind (spread ammo sets the spread-shot flag and
queues an orange burst, missile ammo adds 3 and queues a cyan burst); the
collected index list of this loop is never used for removal, exactly as in
the source. -/
def pickupLoop2 (i : FrameInput) (s : MainState) : MainState :=
  let r := s.ammo_items.enum.foldl
    (fun (acc : List Nat × ℤ × Bool × ParticleSystem) ap =>
      if ap.2.intersects s.player s.window_size = true then
        match ap.2.object_type with
        | GameObjectType.SpreadAmmo =>
            (acc.1 ++ [ap.1], acc.2.1, true,
             acc.2.2.2.add_explosion ap.2.pos ⟨1, 1/2, 0, 1⟩ (i.pickupGen2 acc.1.length))
        | GameObjectType.MissileAmmo =>
            (acc.1 ++ [ap.1], acc.2.1 + 3, acc.2.2.1,
             acc.2.2.2.add_explosion ap.2.pos ⟨0, 1, 1, 1⟩ (i.pickupGen2 acc.1.length))
        | _ => (acc.1 ++ [ap.1], acc.2.1, acc.2.2.1, acc.2.2.2)
      else acc)
    ([], s.missile_ammo, s.has_spread_shot, s.particles)
  { s with missile_ammo := r.2.1
           has_spread_shot := r.2.2.1
           particles := r.2.2.2 }

/-- The whole non-paused, non-game-over body of `MainState::update`, in
source order. -/
def updatePlaying (F : FloatOps) (i : FrameInput) (s : MainState) : MainState :=
  pickupLoop2 i (pickupLoop1 i (moveAmmoStep (particleTick i (collisionStep i
    (starStep (retainEnemies (enemyMoveStep (enemySpawnStep F i (retainBullets
      (ammoSpawnStep F i (moveBullets F (missileStep F i (fireStep F i
        (movePlayer i s))))))))))))))

/-- `MainState::update`: refresh the window size, handle the pause key
(before anything else), then: in game over only the restart key is handled;
when paused nothing further happens; otherwise run the playing body. -/
def MainState.update (F : FloatOps) (i : FrameInput) (s0 : MainState) : MainState :=
  let s1 := { s0 with window_size := WindowSize.new i.winW i.winH }
  let s2 := pauseKeyStep i s1
  if s2.game_over then (if i.keySpace then s2.reset F else s2)
  else if s2.paused then s2
  else updatePlaying F i s2

/-- A concrete instantiation of the abstract float operations, used for the
concrete evaluations below. -/
def F0 : FloatOps := ⟨fun _ => 0, fun _ => 0, fun _ _ => 0, fun _ => 0, 0⟩

/-- Base frame input: reference window size, no key held, zero elapsed
time, all random draws fixed. -/
def i0 : FrameInput :=
  { winW := 1024, winH := 768
    keyP := false, keySpace := false, keyX := false
    keyLeft := false, keyRight := false, keyUpArrow := false, keyDownArrow := false
    keyA := false, keyD := false, keyW := false, keyS := false
    dt := 0, enemyX := 0, ammoX := 0, ammoCoin := false
    shootGen := fun _ => (⟨0, 0⟩, 1)
    explGen := fun _ _ => (⟨0, 0⟩, 1)
    pickupGen1 := fun _ _ => (⟨0, 0⟩, 1)
    pickupGen2 := fun _ _ => (⟨0, 0⟩, 1) }

/-- Base game state (initial state with an empty star field). -/
def baseState : MainState := MainState.new F0 []

/-- The kind pairs of the bullet-hits-enemy collision arms of
`GameObject::intersects` (either order). -/
def BulletEnemyPair (ta tb : GameObjectType) : Prop :=
  ((ta = GameObjectType.Bullet ∨ ta = GameObjectType.SpreadShot) ∧ tb = GameObjectType.Enemy)
  ∨ (ta = GameObjectType.Enemy ∧ (tb = GameObjectType.Bullet ∨ tb = GameObjectType.SpreadShot))

/-- Reference window (scale factors 1). -/
def baseWS : WindowSize := WindowSize.new 1024 768

/-- A player object at the origin (50×60, as created by the game). -/
def playerC2 : GameObject := GameObject.new F0 0 0 50 60 GameObjectType.Player

/-- A missile-ammo pickup 30 units to the right of `playerC2` (20×20, as
spawned by the game). -/
def ammoC2 : GameObject := GameObject.new F0 30 0 20 20 GameObjectType.MissileAmmo

/-- An enemy object (40×40, as spawned by the game). -/
def enemyW2a : GameObject := GameObject.new F0 100 100 40 40 GameObjectType.Enemy

/-- Another enemy object of the same size at a different position. -/
def enemyW2b : GameObject := GameObject.new F0 200 150 40 40 GameObjectType.Enemy

/-- Rotation of a vector by an angle θ via the standard rotation matrix,
written with the same abstract trigonometric functions; this is the
specification-side meaning of "the unit vector rotated by θ". -/
def specRotate (F : FloatOps) (θ : ℚ) (v : Vec2) : Vec2 :=
  ⟨v.x * F.cos θ - v.y * F.sin θ, v.x * F.sin θ + v.y * F.cos θ⟩

-- ===== concrete claim instances =====

/-- A state whose shoot cooldown (300 ms) is still positive after a 10 ms
frame. -/
def s6a : MainState := { baseState with shoot_cooldown := 300 }

/-- Frame input holding the fire key with a 10 ms frame delta. -/
def i6a : FrameInput := { i0 with keySpace := true, dt := 10 }

/-- Frame input holding the fire key with a zero frame delta. -/
def i6b : FrameInput := { i0 with keySpace := true }

/-- A state with the spread-shot flag set. -/
def s8spread : MainState := { baseState with has_spread_shot := true }

/-- A guided missile with no target. -/
def missileNoTarget : GameObject :=
  GameObject.new F0 100 100 8 24 GameObjectType.GuidedMissile

/-- A guided missile whose stored target index is 0. -/
def missileT0 : GameObject := { missileNoTarget with target := some 0 }

/-- An enemy whose center coincides with `missileT0`'s position. -/
def enemyAt100 : GameObject := GameObject.new F0 100 100 40 40 GameObjectType.Enemy

/-- The invariant of the collision scan accumulator: both destroyed-index
lists are duplicate-free and have equal length (their zip is the list of
recorded hit pairs). -/
def ScanInv (acc : ScanAcc) : Prop :=
  acc.destB.Nodup ∧ acc.destE.Nodup ∧ acc.destB.length = acc.destE.length

/-- The empty particle pool. -/
def emptyPS : ParticleSystem := ⟨[]⟩

/-- A sample operation sequence on the particle pool: one burst followed by
one tick. -/
def ops5 : List PoolOp :=
  [PoolOp.burst ⟨0, 0⟩ ⟨0, 1, 1, 1⟩ (fun _ => (⟨0, 0⟩, 1)),
   PoolOp.tick 1 baseWS]

/-- A state with no enemies (missile launch must be a no-op). -/
def s7empty : MainState := baseState

/-- A state with exactly one enemy and positive missile ammo. -/
def s7one : MainState :=
  { baseState with enemies := [GameObject.new F0 300 200 40 40 GameObjectType.Enemy] }

/-- The pair of pause-related fields of a state, used to show that the
playing body never touches them. -/
def pausePair (s : MainState) : Bool × Bool := (s.paused, s.p_key_pressed)

/-- A game-over state with the pause flag clear and the pause key not
previously held. -/
def s3go : MainState := { baseState with game_over := true }

/-- Frame input holding only the pause key. -/
def i3p : FrameInput := { i0 with keyP := true }

/-- A state matching the spec scenario for pickups: missile ammo 2 and one
spread-ammo pickup overlapping the player. -/
def s1pick : MainState :=
  { baseState with
      player := { baseState.player with pos := ⟨512, 700⟩ }
      missile_ammo := 2
      ammo_items := [GameObject.new F0 512 700 25 25 GameObjectType.SpreadAmmo] }

/-- A state with the player near the left edge. -/
def s9left : MainState :=
  { baseState with player := { baseState.player with pos := ⟨10, 300⟩ } }

/-- Frame input holding only the left arrow key. -/
def i9left : FrameInput := { i0 with keyLeft := true }

-- ===== theorems =====

/-- The squared center distance is symmetric. -/
theorem dist2_comm (a b : Vec2) : dist2 a b = dist2 b a := by
  unfold dist2; ring

/-- For equal sizes, swapping the two objects preserves the radius sum of
the collision test. -/
theorem radiusSum_comm_of_size_eq (ta tb : GameObjectType) (v : Vec2) :
    (radiusPair ta tb v v).1 + (radiusPair ta tb v v).2
      = (radiusPair tb ta v v).1 + (radiusPair tb ta v v).2 := by
  cases ta <;> cases tb <;> simp [radiusPair] <;> ring

/-- For the bullet/enemy arms, swapping the two objects preserves the
radius sum of the collision test for arbitrary sizes. -/
theorem radiusSum_comm_of_bulletEnemy (ta tb : GameObjectType) (sa sb : Vec2)
    (h : BulletEnemyPair ta tb) :
    (radiusPair ta tb sa sb).1 + (radiusPair ta tb sa sb).2
      = (radiusPair tb ta sb sa).1 + (radiusPair tb ta sb sa).2 := by
  rcases h with ⟨h1 | h1, h2⟩ | ⟨h1, h2 | h2⟩ <;> subst h1 <;> subst h2 <;>
    simp [radiusPair] <;> ring

/-- Swapping the two objects preserves the scaled radius sum when the sizes
agree or the kinds form a bullet/enemy pair. -/
theorem scaledRadiusSum_comm (a b : GameObject) (ws : WindowSize)
    (h : a.base_size = b.base_size ∨ BulletEnemyPair a.object_type b.object_type) :
    scaledRadiusSum a b ws = scaledRadiusSum b a ws := by
  unfold scaledRadiusSum
  rcases h with h | h
  · have hs := radiusSum_comm_of_size_eq a.object_type b.object_type b.base_size
    rw [h]
    calc (radiusPair a.object_type b.object_type b.base_size b.base_size).1
            * qmin ws.scale_x ws.scale_y
          + (radiusPair a.object_type b.object_type b.base_size b.base_size).2
            * qmin ws.scale_x ws.scale_y
        = ((radiusPair a.object_type b.object_type b.base_size b.base_size).1
            + (radiusPair a.object_type b.object_type b.base_size b.base_size).2)
            * qmin ws.scale_x ws.scale_y := by ring
      _ = ((radiusPair b.object_type a.object_type b.base_size b.base_size).1
            + (radiusPair b.object_type a.object_type b.base_size b.base_size).2)
            * qmin ws.scale_x ws.scale_y := by rw [hs]
      _ = (radiusPair b.object_type a.object_type b.base_size b.base_size).1
            * qmin ws.scale_x ws.scale_y
          + (radiusPair b.object_type a.object_type b.base_size b.base_size).2
            * qmin ws.scale_x ws.scale_y := by ring
  · have hs := radiusSum_comm_of_bulletEnemy a.object_type b.object_type
      a.base_size b.base_size h
    calc (radiusPair a.object_type b.object_type a.base_size b.base_size).1
            * qmin ws.scale_x ws.scale_y
          + (radiusPair a.object_type b.object_type a.base_size b.base_size).2
            * qmin ws.scale_x ws.scale_y
        = ((radiusPair a.object_type b.object_type a.base_size b.base_size).1
            + (radiusPair a.object_type b.object_type a.base_size b.base_size).2)
            * qmin ws.scale_x ws.scale_y := by ring
      _ = ((radiusPair b.object_type a.object_type b.base_size a.base_size).1
            + (radiusPair b.object_type a.object_type b.base_size a.base_size).2)
            * qmin ws.scale_x ws.scale_y := by rw [hs]
      _ = (radiusPair b.object_type a.object_type b.base_size a.base_size).1
            * qmin ws.scale_x ws.scale_y
          + (radiusPair b.object_type a.object_type b.base_size a.base_size).2
            * qmin ws.scale_x ws.scale_y := by ring

/-- Claim C2, counterexample: `intersects` is not symmetric.  For a 50×60
player and a 20×20 missile-ammo pickup whose centers are 30 apart at the
reference window size, `player.intersects ammo` is true (both radii are
taken from the player's size: 30 + 30 = 60 > 30) while
`ammo.intersects player` is false (both radii from the pickup's size:
12 + 12 = 24 < 30). -/
theorem C2_symmetry_counterexample :
    playerC2.intersects ammoC2 baseWS = true ∧
    ammoC2.intersects playerC2 baseWS = false := by with_unfolding_all decide

/-- Claim C2 (amended): the circle-overlap test compares the scaled center
distance with a sum of two radii determined by the ordered kind pair, but in
the player/pickup, player/enemy and fallback arms both radii are computed
from the first object's size, so `intersects` is only guaranteed symmetric
when the two objects have equal `base_size`, or unconditionally for
bullet/spread-shot versus enemy pairs. -/
theorem C2_intersects_symmetric_amended (a b : GameObject) (ws : WindowSize)
    (h : a.base_size = b.base_size ∨ BulletEnemyPair a.object_type b.object_type) :
    a.intersects b ws = b.intersects a ws := by
  unfold GameObject.intersects
  rw [decide_eq_decide, scaledRadiusSum_comm a b ws h,
    dist2_comm (ws.scale_vec2 a.pos) (ws.scale_vec2 b.pos)]

/-- Witness for C2: two 40×40 enemies, equal sizes, symmetric result. -/
theorem C2_intersects_symmetric_witness :
    enemyW2a.intersects enemyW2b baseWS = enemyW2b.intersects enemyW2a baseWS :=
  C2_intersects_symmetric_amended enemyW2a enemyW2b baseWS (Or.inl rfl)

/-- A point is at squared distance zero from itself. -/
theorem dist2_self (a : Vec2) : dist2 a a = 0 := by
  unfold dist2; ring

/-- Claim C10: a guided-missile update dereferences its stored target index
only under the bounds check against the current enemy-collection length;
when the missile has no target, or the index is out of range, or the
missile's position coincides with the target's, the missile is returned
unchanged (same rotation and velocity), so it keeps its previous heading
and no out-of-range access occurs. -/
theorem C10_guided_missile_safety (F : FloatOps) (m : GameObject)
    (enemies : List GameObject) (ws : WindowSize) :
    (m.target = none → m.update_guided_missile F enemies ws = m) ∧
    (∀ t, m.target = some t → enemies.length ≤ t →
      m.update_guided_missile F enemies ws = m) ∧
    (∀ t (ht : t < enemies.length), m.target = some t →
      (enemies.get ⟨t, ht⟩).pos = m.pos →
      m.update_guided_missile F enemies ws = m) := by
  refine ⟨?_, ?_, ?_⟩
  · intro h
    simp only [GameObject.update_guided_missile, h]
  · intro t ht hlen
    simp only [GameObject.update_guided_missile, ht]
    rw [dif_neg (Nat.not_lt.mpr hlen)]
  · intro t ht hsome hpos
    simp only [GameObject.update_guided_missile, hsome]
    rw [dif_pos ht]
    simp only [hpos, dist2_self, lt_irrefl, if_false]

/-- Witness for C10: a targetless missile, a missile whose index 0 is out
of range for an empty enemy list, and a missile coinciding with its target
are all left unchanged. -/
theorem C10_guided_missile_safety_witness :
    missileNoTarget.update_guided_missile F0 [] baseWS = missileNoTarget ∧
    missileT0.update_guided_missile F0 [] baseWS = missileT0 ∧
    missileT0.update_guided_missile F0 [enemyAt100] baseWS = missileT0 :=
  ⟨(C10_guided_missile_safety F0 missileNoTarget [] baseWS).1 rfl,
   (C10_guided_missile_safety F0 missileT0 [] baseWS).2.1 0 rfl (Nat.le_refl 0),
   (C10_guided_missile_safety F0 missileT0 [enemyAt100] baseWS).2.2 0
     (Nat.zero_lt_succ 0) rfl rfl⟩

/-- Claim C6: in the primary-fire step, when the fire key is held and the
cooldown is still positive after subtracting the frame's elapsed time, the
bullet collection is unchanged (and the cooldown keeps its decremented
value); when the fire key is held and the cooldown has reached zero,
exactly one bullet is added (five with spread shot) and the cooldown is
reset to 250 ms. -/
theorem C6_fire_cooldown (F : FloatOps) (i : FrameInput) (s : MainState) :
    (i.keySpace = true → 0 < satSub s.shoot_cooldown i.dt →
      (fireStep F i s).bullets = s.bullets ∧
      (fireStep F i s).shoot_cooldown = satSub s.shoot_cooldown i.dt) ∧
    (i.keySpace = true → satSub s.shoot_cooldown i.dt = 0 →
      (fireStep F i s).bullets.length
          = s.bullets.length + (if s.has_spread_shot then 5 else 1) ∧
      (fireStep F i s).shoot_cooldown = 250) := by
  constructor
  · intro hk hc
    simp only [fireStep]
    rw [if_neg]
    · exact ⟨rfl, rfl⟩
    · rintro ⟨-, h2⟩
      rw [h2] at hc
      exact lt_irrefl 0 hc
  · intro hk hc
    simp only [fireStep]
    rw [if_pos ⟨hk, hc⟩]
    refine ⟨?_, rfl⟩
    show (s.shoot F i).bullets.length = _
    simp only [MainState.shoot]
    cases hsp : s.has_spread_shot <;>
      simp [hsp, List.length_append]

/-- Witness for C6: with cooldown 300 ms and a 10 ms frame, holding fire
adds no bullet; with cooldown 0, holding fire adds exactly one bullet (no
spread) and resets the cooldown to 250 ms. -/
theorem C6_fire_cooldown_witness :
    ((fireStep F0 i6a s6a).bullets = s6a.bullets ∧
      (fireStep F0 i6a s6a).shoot_cooldown = satSub s6a.shoot_cooldown i6a.dt) ∧
    ((fireStep F0 i6b baseState).bullets.length
        = baseState.bullets.length + (if baseState.has_spread_shot then 5 else 1) ∧
      (fireStep F0 i6b baseState).shoot_cooldown = 250) :=
  ⟨(C6_fire_cooldown F0 i6a s6a).1 rfl (by with_unfolding_all decide),
   (C6_fire_cooldown F0 i6b baseState).2 rfl (by with_unfolding_all decide)⟩

/-- Claim C8: firing with spread shot enabled appends exactly five bullets
in this frame; their rotations are −30°, −15°, 0°, 15°, 30° converted to
radians, and each bullet's velocity is the straight-up unit vector
`(0, -1)` rotated by its own rotation angle (rotation matrix over the same
abstract trigonometric functions), scaled by the bullet speed constant
`BULLET_SPEED_RATIO * height`. -/
theorem C8_spread_shot (F : FloatOps) (i : FrameInput) (s : MainState)
    (h : s.has_spread_shot = true) :
    ∃ bs, (s.shoot F i).bullets = s.bullets ++ bs ∧ bs.length = 5 ∧
      bs.map GameObject.rotation = ([-30, -15, 0, 15, 30] : List ℚ).map F.toRadians ∧
      ∀ b ∈ bs, b.object_type = GameObjectType.SpreadShot ∧
        b.speed = Vec2.scale (BULLET_SPEED_RATE * s.window_size.height)
          (specRotate F b.rotation ⟨0, -1⟩) := by
  simp only [MainState.shoot, h, if_true]
  refine ⟨_, rfl, by simp, by simp, ?_⟩
  simp only [List.mem_map]
  rintro b ⟨angle, hangle, rfl⟩
  refine ⟨rfl, ?_⟩
  show Vec2.scale _ ⟨F.sin (F.toRadians angle), -(F.cos (F.toRadians angle))⟩
      = Vec2.scale _ (specRotate F (F.toRadians angle) ⟨0, -1⟩)
  simp only [specRotate, Vec2.scale, Vec2.mk.injEq]
  constructor <;> ring

/-- Witness for C8: a concrete state with the spread flag set. -/
theorem C8_spread_shot_witness :
    ∃ bs, (s8spread.shoot F0 i0).bullets = s8spread.bullets ++ bs ∧ bs.length = 5 ∧
      bs.map GameObject.rotation
        = ([-30, -15, 0, 15, 30] : List ℚ).map F0.toRadians ∧
      ∀ b ∈ bs, b.object_type = GameObjectType.SpreadShot ∧
        b.speed = Vec2.scale (BULLET_SPEED_RATE * s8spread.window_size.height)
          (specRotate F0 b.rotation ⟨0, -1⟩) :=
  C8_spread_shot F0 i0 s8spread rfl

/-- Length accounting of `add_explosion`: exactly
`min EXPLOSION_PARTICLES (MAX_PARTICLES - len)` particles are appended. -/
theorem add_explosion_length (ps : ParticleSystem) (pos : Vec2) (color : Color)
    (gen : Nat → Vec2 × ℚ) :
    (ps.add_explosion pos color gen).particles.length
      = ps.particles.length + min EXPLOSION_PARTICLES (MAX_PARTICLES - ps.particles.length) := by
  simp [ParticleSystem.add_explosion]

/-- Every pool operation preserves the particle cap. -/
theorem PoolOp_run_length_le (ps : ParticleSystem) (op : PoolOp)
    (h : ps.particles.length ≤ MAX_PARTICLES) :
    (PoolOp.run ps op).particles.length ≤ MAX_PARTICLES := by
  cases op with
  | burst pos c gen =>
    show (ps.add_explosion pos c gen).particles.length ≤ MAX_PARTICLES
    rw [add_explosion_length]
    omega
  | tick dt ws =>
    show (ps.update dt ws).particles.length ≤ MAX_PARTICLES
    calc (ps.update dt ws).particles.length
        ≤ (ps.particles.map (fun p => p.update dt ws)).length :=
          List.length_filter_le _ _
      _ = ps.particles.length := List.length_map _ _
      _ ≤ MAX_PARTICLES := h

/-- The cap is preserved along any sequence of pool operations. -/
theorem PoolOp_foldl_length_le (ops : List PoolOp) :
    ∀ ps : ParticleSystem, ps.particles.length ≤ MAX_PARTICLES →
    (ops.foldl PoolOp.run ps).particles.length ≤ MAX_PARTICLES := by
  induction ops with
  | nil => intro ps h; exact h
  | cons op rest ih => intro ps h; exact ih _ (PoolOp_run_length_le ps op h)

/-- Claim C5: starting from any pool within the cap, after any sequence of
burst requests and update ticks the pool size never exceeds
`MAX_PARTICLES` (1000); moreover a single burst appends exactly
`min EXPLOSION_PARTICLES (MAX_PARTICLES - size)` new particles — only as
many as fit, possibly zero — to the existing pool, so no existing particle
is evicted. -/
theorem C5_particle_cap (ps : ParticleSystem) (h : ps.particles.length ≤ MAX_PARTICLES)
    (ops : List PoolOp) :
    ((ops.foldl PoolOp.run ps).particles.length ≤ MAX_PARTICLES) ∧
    (∀ pos color gen, ∃ news,
      (ps.add_explosion pos color gen).particles = ps.particles ++ news ∧
      news.length = min EXPLOSION_PARTICLES (MAX_PARTICLES - ps.particles.length)) := by
  refine ⟨PoolOp_foldl_length_le ops ps h, ?_⟩
  intro pos color gen
  exact ⟨_, rfl, by simp⟩

/-- Witness for C5: the empty pool, one burst then one tick. -/
theorem C5_particle_cap_witness :
    (ops5.foldl PoolOp.run emptyPS).particles.length ≤ MAX_PARTICLES :=
  (C5_particle_cap emptyPS (by decide) ops5).1

/-- Appending a fresh element preserves `Nodup`. -/
theorem nodup_snoc {l : List Nat} {x : Nat} (hl : l.Nodup) (hx : x ∉ l) :
    (l ++ [x]).Nodup := by
  rw [List.nodup_append]
  refine ⟨hl, List.nodup_singleton x, ?_⟩
  intro a ha hb
  rw [List.mem_singleton] at hb
  subst hb
  exact hx ha

/-- The inner scan loop preserves the scan invariant. -/
theorem scanInner_inv (ws : WindowSize) (bp : Nat × GameObject)
    (eps : List (Nat × GameObject)) :
    ∀ acc : ScanAcc, ScanInv acc → ScanInv (scanInner ws bp eps acc) := by
  induction eps with
  | nil => intro acc h; exact h
  | cons ep rest ih =>
    intro acc h
    simp only [scanInner]
    apply ih
    split
    next hc =>
      exact ⟨nodup_snoc h.1 hc.1, nodup_snoc h.2.1 hc.2.1,
        by simp [List.length_append, h.2.2]⟩
    next => exact h

/-- The outer scan loop preserves the scan invariant. -/
theorem scanOuter_inv (ws : WindowSize) (bps eps : List (Nat × GameObject)) :
    ∀ acc : ScanAcc, ScanInv acc → ScanInv (scanOuter ws bps eps acc) := by
  induction bps with
  | nil => intro acc h; exact h
  | cons bp rest ih => intro acc h; exact ih _ (scanInner_inv ws bp eps acc h)

/-- Claim C4: within one frame's bullet×enemy scan, the recorded hits form
a partial matching — the destroyed-bullet index list and the
destroyed-enemy index list (whose zip is the list of recorded hit pairs,
appended to in lockstep) are each duplicate-free, so no bullet index and no
enemy index occurs in more than one recorded hit. -/
theorem C4_scan_matching (bullets enemies : List GameObject) (ws : WindowSize)
    (score0 : ℤ) :
    (collisionScan bullets enemies ws score0).destB.Nodup ∧
    (collisionScan bullets enemies ws score0).destE.Nodup ∧
    (collisionScan bullets enemies ws score0).destB.length
      = (collisionScan bullets enemies ws score0).destE.length :=
  scanOuter_inv ws bullets.enum enemies.enum ⟨[], [], score0, []⟩
    ⟨List.nodup_nil, List.nodup_nil, rfl⟩

/-- The accumulator-generalized specification of the closest-enemy fold:
starting from a best-so-far `(ci, some m)`, the result is no larger than
`m`, is a lower bound of all the distances in the remaining list, and is
either the initial best or attained at an index of the remaining list
(offset by the running index `i0`). -/
theorem closestEnemyAux_spec (p : Vec2) (es : List GameObject) :
    ∀ (i0 ci : Nat) (m : ℚ),
    ∃ ri rm, closestEnemyAux p es i0 (ci, some m) = (ri, some rm) ∧ rm ≤ m ∧
      (∀ k (hk : k < es.length), rm ≤ dist2 (es.get ⟨k, hk⟩).pos p) ∧
      ((ri = ci ∧ rm = m) ∨
        ∃ k, ∃ (hk : k < es.length), ri = i0 + k ∧ rm = dist2 (es.get ⟨k, hk⟩).pos p) := by
  induction es with
  | nil =>
    intro i0 ci m
    refine ⟨ci, m, rfl, le_refl m, ?_, Or.inl ⟨rfl, rfl⟩⟩
    intro k hk
    exact absurd hk (Nat.not_lt_zero k)
  | cons e es ih =>
    intro i0 ci m
    by_cases hd : dist2 e.pos p < m
    · have step : closestEnemyAux p (e :: es) i0 (ci, some m)
          = closestEnemyAux p es (i0 + 1) (i0, some (dist2 e.pos p)) := by
        simp [closestEnemyAux, hd]
      obtain ⟨ri, rm, heq, hle, hall, hcase⟩ := ih (i0 + 1) i0 (dist2 e.pos p)
      refine ⟨ri, rm, step.trans heq, hle.trans (le_of_lt hd), ?_, ?_⟩
      · intro k hk
        cases k with
        | zero => exact hle
        | succ k => exact hall k (Nat.lt_of_succ_lt_succ hk)
      · rcases hcase with ⟨h1, h2⟩ | ⟨k, hk, h1, h2⟩
        · exact Or.inr ⟨0, Nat.zero_lt_succ _, by omega, h2⟩
        · exact Or.inr ⟨k + 1, Nat.succ_lt_succ hk, by omega, h2⟩
    · have step : closestEnemyAux p (e :: es) i0 (ci, some m)
          = closestEnemyAux p es (i0 + 1) (ci, some m) := by
        simp [closestEnemyAux, hd]
      obtain ⟨ri, rm, heq, hle, hall, hcase⟩ := ih (i0 + 1) ci m
      refine ⟨ri, rm, step.trans heq, hle, ?_, ?_⟩
      · intro k hk
        cases k with
        | zero => exact hle.trans (not_lt.mp hd)
        | succ k => exact hall k (Nat.lt_of_succ_lt_succ hk)
      · rcases hcase with h | ⟨k, hk, h1, h2⟩
        · exact Or.inl h
        · exact Or.inr ⟨k + 1, Nat.succ_lt_succ hk, by omega, h2⟩

/-- On a nonempty enemy list, the closest-enemy fold returns an in-range
index whose squared distance to the player is minimal. -/
theorem closestEnemy_found (p : Vec2) (enemies : List GameObject) (h : enemies ≠ []) :
    ∃ ri rm, closestEnemyAux p enemies 0 (0, none) = (ri, some rm) ∧
      ∃ (hri : ri < enemies.length),
        rm = dist2 (enemies.get ⟨ri, hri⟩).pos p ∧
        ∀ j (hj : j < enemies.length), rm ≤ dist2 (enemies.get ⟨j, hj⟩).pos p := by
  cases enemies with
  | nil => exact absurd rfl h
  | cons e es =>
    have step : closestEnemyAux p (e :: es) 0 (0, none)
        = closestEnemyAux p es 1 (0, some (dist2 e.pos p)) := by
      simp [closestEnemyAux]
    obtain ⟨ri, rm, heq, hle, hall, hcase⟩ := closestEnemyAux_spec p es 1 0 (dist2 e.pos p)
    refine ⟨ri, rm, step.trans heq, ?_⟩
    rcases hcase with ⟨h1, h2⟩ | ⟨k, hk, h1, h2⟩
    · subst h1
      refine ⟨Nat.zero_lt_succ _, h2, ?_⟩
      intro j hj
      cases j with
      | zero => exact le_of_eq h2
      | succ j => exact hall j (Nat.lt_of_succ_lt_succ hj)
    · have hri : ri < (e :: es).length := by
        simp only [List.length_cons]
        omega
      refine ⟨hri, ?_, ?_⟩
      · have hfin : (⟨ri, hri⟩ : Fin (e :: es).length)
            = ⟨k + 1, by simpa using Nat.succ_lt_succ hk⟩ := by
          apply Fin.ext
          simpa using h1.trans (Nat.add_comm 1 k)
        rw [hfin]
        exact h2
      · intro j hj
        cases j with
        | zero => exact hle
        | succ j => exact hall j (Nat.lt_of_succ_lt_succ hj)

/-- Claim C7: launching a homing missile with no enemy present or with the
ammo counter at or below zero is a complete no-op (the state is returned
unchanged); otherwise exactly one guided missile is appended to the bullet
collection, its stored target is an index of an enemy at minimum
straight-line distance from the player at launch time (squared distances
are compared, which orders identically), and the ammo counter decreases by
exactly one. -/
theorem C7_launch_missile (F : FloatOps) (s : MainState) :
    (s.enemies = [] ∨ s.missile_ammo ≤ 0 → s.launch_missile F = s) ∧
    (s.enemies ≠ [] → 0 < s.missile_ammo →
      ∃ missile ti,
        (s.launch_missile F).bullets = s.bullets ++ [missile] ∧
        (s.launch_missile F).missile_ammo = s.missile_ammo - 1 ∧
        (s.launch_missile F).enemies = s.enemies ∧
        (s.launch_missile F).player = s.player ∧
        missile.object_type = GameObjectType.GuidedMissile ∧
        missile.target = some ti ∧
        ∃ (hti : ti < s.enemies.length),
          ∀ j (hj : j < s.enemies.length),
            dist2 (s.enemies.get ⟨ti, hti⟩).pos s.player.pos
              ≤ dist2 (s.enemies.get ⟨j, hj⟩).pos s.player.pos) := by
  constructor
  · intro h
    unfold MainState.launch_missile
    rw [if_pos]
    rcases h with h | h
    · exact Or.inl (by simp [h])
    · exact Or.inr h
  · intro hne hpos
    obtain ⟨ri, rm, heq, hri, hrm, hmin⟩ := closestEnemy_found s.player.pos s.enemies hne
    have hfst : (closestEnemyAux s.player.pos s.enemies 0 (0, none)).1 = ri := by
      rw [heq]
    unfold MainState.launch_missile
    rw [if_neg (by
      rintro (h | h)
      · exact hne (List.isEmpty_iff.mp h)
      · omega)]
    refine ⟨_, ri, rfl, rfl, rfl, rfl, rfl, ?_, ?_⟩
    · show some (closestEnemyAux s.player.pos s.enemies 0 (0, none)).1 = some ri
      rw [hfst]
    · refine ⟨hri, ?_⟩
      intro j hj
      rw [← hrm]
      exact hmin j hj

/-- Witness for C7: with no enemies the launch is a no-op; with one enemy
and ammo 5 exactly one missile is appended targeting that enemy. -/
theorem C7_launch_missile_witness :
    (s7empty.launch_missile F0 = s7empty) ∧
    (∃ missile ti,
      (s7one.launch_missile F0).bullets = s7one.bullets ++ [missile] ∧
      (s7one.launch_missile F0).missile_ammo = s7one.missile_ammo - 1 ∧
      (s7one.launch_missile F0).enemies = s7one.enemies ∧
      (s7one.launch_missile F0).player = s7one.player ∧
      missile.object_type = GameObjectType.GuidedMissile ∧
      missile.target = some ti ∧
      ∃ (hti : ti < s7one.enemies.length),
        ∀ j (hj : j < s7one.enemies.length),
          dist2 (s7one.enemies.get ⟨ti, hti⟩).pos s7one.player.pos
            ≤ dist2 (s7one.enemies.get ⟨j, hj⟩).pos s7one.player.pos) :=
  ⟨(C7_launch_missile F0 s7empty).1 (Or.inl rfl),
   (C7_launch_missile F0 s7one).2 (by simp [s7one]) (by decide)⟩

/-- `movePlayer` does not touch the pause fields. -/
theorem pp_movePlayer (i : FrameInput) (s : MainState) :
    pausePair (movePlayer i s) = pausePair s := rfl

/-- `fireStep` does not touch the pause fields. -/
theorem pp_fireStep (F : FloatOps) (i : FrameInput) (s : MainState) :
    pausePair (fireStep F i s) = pausePair s := by
  simp only [fireStep]
  split <;> rfl

/-- `launch_missile` does not touch the pause fields. -/
theorem pp_launch_missile (F : FloatOps) (s : MainState) :
    pausePair (s.launch_missile F) = pausePair s := by
  unfold MainState.launch_missile
  split <;> rfl

/-- `missileStep` does not touch the pause fields. -/
theorem pp_missileStep (F : FloatOps) (i : FrameInput) (s : MainState) :
    pausePair (missileStep F i s) = pausePair s := by
  simp only [missileStep]
  split
  · exact pp_launch_missile F s
  · rfl

/-- `moveBullets` does not touch the pause fields. -/
theorem pp_moveBullets (F : FloatOps) (s : MainState) :
    pausePair (moveBullets F s) = pausePair s := rfl

/-- `ammoSpawnStep` does not touch the pause fields. -/
theorem pp_ammoSpawnStep (F : FloatOps) (i : FrameInput) (s : MainState) :
    pausePair (ammoSpawnStep F i s) = pausePair s := by
  simp only [ammoSpawnStep]
  split <;> rfl

/-- `retainBullets` does not touch the pause fields. -/
theorem pp_retainBullets (s : MainState) :
    pausePair (retainBullets s) = pausePair s := rfl

/-- `enemySpawnStep` does not touch the pause fields. -/
theorem pp_enemySpawnStep (F : FloatOps) (i : FrameInput) (s : MainState) :
    pausePair (enemySpawnStep F i s) = pausePair s := by
  simp only [enemySpawnStep]
  split <;> rfl

/-- `enemyMoveStep` does not touch the pause fields. -/
theorem pp_enemyMoveStep (s : MainState) :
    pausePair (enemyMoveStep s) = pausePair s := rfl

/-- `retainEnemies` does not touch the pause fields. -/
theorem pp_retainEnemies (s : MainState) :
    pausePair (retainEnemies s) = pausePair s := rfl

/-- `starStep` does not touch the pause fields. -/
theorem pp_starStep (s : MainState) :
    pausePair (starStep s) = pausePair s := rfl

/-- `collisionStep` does not touch the pause fields. -/
theorem pp_collisionStep (i : FrameInput) (s : MainState) :
    pausePair (collisionStep i s) = pausePair s := rfl

/-- `particleTick` does not touch the pause fields. -/
theorem pp_particleTick (i : FrameInput) (s : MainState) :
    pausePair (particleTick i s) = pausePair s := rfl

/-- `moveAmmoStep` does not touch the pause fields. -/
theorem pp_moveAmmoStep (s : MainState) :
    pausePair (moveAmmoStep s) = pausePair s := rfl

/-- `pickupLoop1` does not touch the pause fields. -/
theorem pp_pickupLoop1 (i : FrameInput) (s : MainState) :
    pausePair (pickupLoop1 i s) = pausePair s := rfl

/-- `pickupLoop2` does not touch the pause fields. -/
theorem pp_pickupLoop2 (i : FrameInput) (s : MainState) :
    pausePair (pickupLoop2 i s) = pausePair s := rfl

/-- The whole playing body never touches the pause fields. -/
theorem pp_updatePlaying (F : FloatOps) (i : FrameInput) (s : MainState) :
    pausePair (updatePlaying F i s) = pausePair s := by
  unfold updatePlaying
  rw [pp_pickupLoop2, pp_pickupLoop1, pp_moveAmmoStep, pp_particleTick, pp_collisionStep,
    pp_starStep, pp_retainEnemies, pp_enemyMoveStep, pp_enemySpawnStep, pp_retainBullets,
    pp_ammoSpawnStep, pp_moveBullets, pp_missileStep, pp_fireStep, pp_movePlayer]

/-- The playing body preserves the pause flag. -/
theorem updatePlaying_paused (F : FloatOps) (i : FrameInput) (s : MainState) :
    (updatePlaying F i s).paused = s.paused :=
  congrArg Prod.fst (pp_updatePlaying F i s)

/-- The playing body preserves the tracked pause-key state. -/
theorem updatePlaying_pkey (F : FloatOps) (i : FrameInput) (s : MainState) :
    (updatePlaying F i s).p_key_pressed = s.p_key_pressed :=
  congrArg Prod.snd (pp_updatePlaying F i s)

/-- `reset` clears the pause flag. -/
theorem reset_paused (F : FloatOps) (s : MainState) :
    (s.reset F).paused = false := rfl

/-- `reset` clears the tracked pause-key state. -/
theorem reset_pkey (F : FloatOps) (s : MainState) :
    (s.reset F).p_key_pressed = false := rfl

/-- Claim C3, counterexample: in a game-over state with the pause key newly
pressed (and the restart key not pressed), the frame flips the paused flag
to `true`, although the game-over flag is `true` — contradicting "flips the
paused flag if and only if the game-over flag is false". -/
theorem C3_pause_gameover_counterexample :
    s3go.game_over = true ∧ s3go.paused = false ∧ s3go.p_key_pressed = false ∧
    i3p.keyP = true ∧ i3p.keySpace = false ∧
    (MainState.update F0 i3p s3go).paused = true := by with_unfolding_all decide

/-- Claim C3 (amended): the pause key, when newly pressed (edge-triggered
against the tracked previous key state), flips the paused flag regardless
of the game-over flag, because the pause handling runs before the game-over
check; holding the key across consecutive frames produces no further
toggles (the tracked key state is set); the only exception is a game-over
restart (space during game over), which forces `paused := false` and clears
the tracked key state. -/
theorem C3_pause_toggle_amended (F : FloatOps) (i : FrameInput) (s : MainState) :
    (MainState.update F i s).paused =
      (if s.game_over ∧ i.keySpace then false
       else if i.keyP ∧ ¬ s.p_key_pressed then !s.paused else s.paused) ∧
    (MainState.update F i s).p_key_pressed =
      (if s.game_over ∧ i.keySpace then false else i.keyP) := by
  unfold MainState.update pauseKeyStep
  cases hgo : s.game_over <;> cases hP : i.keyP <;> cases hprev : s.p_key_pressed <;>
    cases hsp : i.keySpace <;> cases hpd : s.paused <;>
      simp_all [updatePlaying_paused, updatePlaying_pkey, reset_paused, reset_pkey]

/-- Claim C1, failing-frame evaluation: in the state of the spec scenario
but with a spread-ammo pickup (missile ammo 2, one overlapping spread-ammo
pickup, spread flag clear), the frame removes the pickup but *adds 3
missile ammo* (2 becomes 5) and queues a *cyan* burst, while the persistent
spread-shot flag stays `false`: the first collection loop applies the
missile-ammo effect to every pickup kind and removes the pickup before the
kind-matching second loop can see it. -/
theorem C1_spread_pickup_code_bug :
    s1pick.missile_ammo = 2 ∧ s1pick.has_spread_shot = false ∧
    s1pick.ammo_items.map GameObject.object_type = [GameObjectType.SpreadAmmo] ∧
    (MainState.update F0 i0 s1pick).has_spread_shot = false ∧
    (MainState.update F0 i0 s1pick).missile_ammo = 5 ∧
    (MainState.update F0 i0 s1pick).ammo_items = [] ∧
    (MainState.update F0 i0 s1pick).particles.particles.map Particle.color
      = List.replicate 10 ⟨0, 1, 1, 1⟩ := by with_unfolding_all decide

/-- Claim C9, failing-frame evaluation: with the player at x = 10 and the
left key held, the frame clamps the player's x to 5 (the clamp interval is
`[0, 1024 - width]`), but the sprite is drawn centered on the position
(offset `(0.5, 0.5)`), so its left edge is at 5 − 25 = −20 < 0: the clamp
does not keep the entire sprite inside the playfield. -/
theorem C9_clamp_code_bug :
    (MainState.update F0 i9left s9left).player.pos.x = 5 ∧
    (MainState.update F0 i9left s9left).player.base_size.x = 50 ∧
    spriteLeftEdge (MainState.update F0 i9left s9left).player < 0 := by
  with_unfolding_all decide
